import Mathlib

/-!
Verification of the GreenFlow AI enrichment / alerting pipeline core.

Shallow embedding of the Python source (app/pipeline/extractor.py,
app/pipeline/streaming.py, app/services/alerts.py, app/api/stream.py).
Python floats are modelled as exact rationals (ℚ); every value and
comparison relevant here is exactly representable and no claim depends
on binary rounding.  Python exceptions are modelled as `Option`:
`none` means the call raised.
-/

namespace GreenFlow

/-- Embedding of app/config.py `Settings`: the threshold fields consumed by
the pipeline core.  Process-wide and read-only for the lifetime of a run. -/
structure Settings where
  CO2_WARNING_THRESHOLD : ℚ
  CO2_DANGER_THRESHOLD : ℚ
  CO2_CRITICAL_THRESHOLD : ℚ
  RISK_SCORE_MAX : ℚ
deriving Repr, DecidableEq

/-- Default field values from app/config.py (350 / 400 / 500 / 1.0). -/
def defaultSettings : Settings :=
  { CO2_WARNING_THRESHOLD := 350
    CO2_DANGER_THRESHOLD := 400
    CO2_CRITICAL_THRESHOLD := 500
    RISK_SCORE_MAX := 1 }

/-- Embedding of extractor.compute_risk_score:
`min(co2_ppm / 500.0, settings.RISK_SCORE_MAX)`. -/
def compute_risk_score (s : Settings) (co2_ppm : ℚ) : ℚ :=
  min (co2_ppm / 500) s.RISK_SCORE_MAX

/-- Embedding of extractor.compute_carbon_score:
`max((co2_ppm - baseline) / baseline, 0.0)` with `baseline = 350.0`. -/
def compute_carbon_score (co2_ppm : ℚ) : ℚ :=
  max ((co2_ppm - 350) / 350) 0

/-- Embedding of extractor.classify_severity: first matching branch of
the if-chain; the critical cut-in compares against the literal `500.0`,
not against `settings.CO2_CRITICAL_THRESHOLD`. -/
def classify_severity (s : Settings) (co2_ppm : ℚ) : String :=
  if co2_ppm < s.CO2_WARNING_THRESHOLD then "safe"
  else if co2_ppm < s.CO2_DANGER_THRESHOLD then "warning"
  else if co2_ppm < 500 then "danger"
  else "critical"

/-- Embedding of extractor.is_anomaly:
`(co2_ppm - baseline_ppm) / std_dev > 2.0` with defaults 350 / 30. -/
def is_anomaly (co2_ppm : ℚ) (baseline_ppm : ℚ := 350) (std_dev : ℚ := 30) : Bool :=
  decide ((co2_ppm - baseline_ppm) / std_dev > 2)

/-- classify_severity always produces one of the four labels,
whatever the thresholds are. -/
theorem classify_severity_total (s : Settings) (co2 : ℚ) :
    classify_severity s co2 ∈ (["safe", "warning", "danger", "critical"] : List String) := by
  unfold classify_severity
  split_ifs <;> simp

/-- Model of the Python/JSON values flowing through the pipeline: numbers,
strings, booleans, None, lists, and dicts (as ordered association lists,
matching insertion order of Python dicts). -/
inductive PyVal where
  | pyNum (q : ℚ)
  | pyStr (s : String)
  | pyBool (b : Bool)
  | pyNone
  | pyList (items : List PyVal)
  | pyDict (fields : List (String × PyVal))
deriving Repr

/-- Python dict lookup `d.get(key)`: first (unique) matching key. -/
def dictGet : List (String × PyVal) → String → Option PyVal
  | [], _ => none
  | kv :: rest, key => if kv.1 = key then some kv.2 else dictGet rest key

/-- Python dict update `d[key] = val` (as performed by a `{**raw, key: val}`
merge): overwrite in place when the key exists, else append at the end. -/
def dictSet : List (String × PyVal) → String → PyVal → List (String × PyVal)
  | [], key, val => [(key, val)]
  | kv :: rest, key, val =>
    if kv.1 = key then (kv.1, val) :: rest else kv :: dictSet rest key val

/-- Digit-string accumulator for `strToRat`; fails on any non-digit. -/
def parseDigitsAux (acc : ℕ) : List Char → Option ℕ
  | [] => some acc
  | c :: cs => if c.isDigit then parseDigitsAux (acc * 10 + (c.toNat - 48)) cs else none

/-- Modelled subset of Python `float(str)`: optional sign, decimal digits
with at most one dot, at least one digit overall.  Exponent notation,
inf/nan, underscores and surrounding whitespace are outside the model
(no pipeline payload reaches them). -/
def strToRat (s : String) : Option ℚ :=
  let cs := s.toList
  let signed : ℚ × List Char :=
    match cs with
    | '-' :: rest => (-1, rest)
    | '+' :: rest => (1, rest)
    | _ => (1, cs)
  let sign := signed.1
  let body := signed.2
  let intPart := body.takeWhile (fun c => c != '.')
  match body.dropWhile (fun c => c != '.') with
  | [] =>
    if intPart.isEmpty then none
    else (parseDigitsAux 0 intPart).map (fun n => sign * (n : ℚ))
  | _ :: fracPart =>
    if intPart.isEmpty && fracPart.isEmpty then none
    else if fracPart.contains '.' then none
    else
      match parseDigitsAux 0 intPart, parseDigitsAux 0 fracPart with
      | some ip, some fp =>
        some (sign * ((ip : ℚ) + (fp : ℚ) / 10 ^ fracPart.length))
      | _, _ => none

/-- Model of Python `float(...)` as used in extractor.enrich_event:
numbers pass through, bools coerce to 0 / 1 (bool is an int subtype),
numeric strings parse, every other value raises (`none`). -/
def pyFloat : PyVal → Option ℚ
  | .pyNum q => some q
  | .pyBool b => some (if b then 1 else 0)
  | .pyStr s => strToRat s
  | _ => none

/-- Embedding of extractor.enrich_event:
`co2 = float(raw.get("co2_ppm", 0.0))` followed by the
`{**raw, "risk_score": ..., "carbon_score": ..., "severity": ..., "anomaly": ...}`
merge.  Only the JSONDecodeError path is caught by callers, so a failing
`float(...)` (or a non-dict payload, where `.get` raises AttributeError)
makes the whole call raise: `none`. -/
def enrich_event (s : Settings) (raw : PyVal) : Option PyVal :=
  match raw with
  | .pyDict fields =>
    match pyFloat ((dictGet fields "co2_ppm").getD (.pyNum 0)) with
    | some co2 =>
      some (.pyDict
        (dictSet (dictSet (dictSet (dictSet fields
          "risk_score" (.pyNum (compute_risk_score s co2)))
          "carbon_score" (.pyNum (compute_carbon_score co2)))
          "severity" (.pyStr (classify_severity s co2)))
          "anomaly" (.pyBool (is_anomaly co2))))
    | none => none
  | _ => none

/-- The quadruple of derived fields read back from an enriched payload. -/
def derivedQuad : PyVal → Option PyVal × Option PyVal × Option PyVal × Option PyVal
  | .pyDict d =>
    (dictGet d "risk_score", dictGet d "carbon_score",
     dictGet d "severity", dictGet d "anomaly")
  | _ => (none, none, none, none)

/-- Looking up the key just set returns the new value. -/
theorem dictGet_dictSet_self (l : List (String × PyVal)) (k : String) (v : PyVal) :
    dictGet (dictSet l k v) k = some v := by
  induction l with
  | nil => simp [dictGet, dictSet]
  | cons kv rest ih =>
    by_cases h : kv.1 = k <;> simp [dictGet, dictSet, h, ih]

/-- Setting one key leaves lookups of every other key unchanged. -/
theorem dictGet_dictSet_ne (l : List (String × PyVal)) (k k2 : String) (v : PyVal)
    (h : k ≠ k2) : dictGet (dictSet l k2 v) k = dictGet l k := by
  induction l with
  | nil =>
    simp [dictGet, dictSet]
    exact fun hh => h hh.symm
  | cons kv rest ih =>
    by_cases hk : kv.1 = k2 <;> by_cases hk2 : kv.1 = k <;>
      simp_all [dictGet, dictSet]

/-- Shape of a successful enrichment: when `float(raw.get("co2_ppm", 0.0))`
yields `co2`, the output dict carries exactly the four derived fields of
`co2` and preserves every other key of the input. -/
theorem enrich_event_fields (s : Settings) (fields : List (String × PyVal)) (co2 : ℚ)
    (h : pyFloat ((dictGet fields "co2_ppm").getD (.pyNum 0)) = some co2) :
    ∃ out, enrich_event s (.pyDict fields) = some (.pyDict out) ∧
      dictGet out "risk_score" = some (.pyNum (compute_risk_score s co2)) ∧
      dictGet out "carbon_score" = some (.pyNum (compute_carbon_score co2)) ∧
      dictGet out "severity" = some (.pyStr (classify_severity s co2)) ∧
      dictGet out "anomaly" = some (.pyBool (is_anomaly co2)) ∧
      ∀ k, k ∉ (["risk_score", "carbon_score", "severity", "anomaly"] : List String) →
        dictGet out k = dictGet fields k := by
  refine ⟨_, by rw [enrich_event, h], ?_, ?_, ?_, ?_, ?_⟩
  · rw [dictGet_dictSet_ne _ _ _ _ (by decide), dictGet_dictSet_ne _ _ _ _ (by decide),
      dictGet_dictSet_ne _ _ _ _ (by decide), dictGet_dictSet_self]
  · rw [dictGet_dictSet_ne _ _ _ _ (by decide), dictGet_dictSet_ne _ _ _ _ (by decide),
      dictGet_dictSet_self]
  · rw [dictGet_dictSet_ne _ _ _ _ (by decide), dictGet_dictSet_self]
  · rw [dictGet_dictSet_self]
  · intro k hk
    simp only [List.mem_cons, List.mem_singleton, not_or] at hk
    rw [dictGet_dictSet_ne _ _ _ _ hk.2.2.2.1, dictGet_dictSet_ne _ _ _ _ hk.2.2.1,
      dictGet_dictSet_ne _ _ _ _ hk.2.1, dictGet_dictSet_ne _ _ _ _ hk.1]

/-- Model of Python str.strip(): drop leading and trailing whitespace. -/
def pyStrip (s : String) : String :=
  String.mk (((s.toList.dropWhile Char.isWhitespace).reverse.dropWhile
    Char.isWhitespace).reverse)

/-- Embedding of streaming.process_file's per-line loop.  The decoder stands
for `json.loads` on one stripped line, an external call returning either a
value or a JSONDecodeError (`none`); theorems quantify over it.  Blank lines
are skipped (`if not line: continue`); a decode failure is caught
(`except json.JSONDecodeError`), logged as a warning, and the loop continues;
any exception out of enrich_event is not caught and aborts the whole call
(`none`); successful enrichments accumulate in file order. -/
def processLines (decode : String → Option PyVal) (s : Settings) :
    List String → Option (List PyVal)
  | [] => some []
  | line :: rest =>
    if pyStrip line = "" then processLines decode s rest
    else
      match decode (pyStrip line) with
      | none => processLines decode s rest
      | some raw =>
        match enrich_event s raw with
        | none => none
        | some e => (processLines decode s rest).map (fun l => e :: l)

/-- Embedding of streaming.process_file: a missing file
(`except FileNotFoundError`) is caught, logged, and yields the empty list;
otherwise the lines are processed in order. -/
def process_file (decode : String → Option PyVal) (s : Settings)
    (file : Option (List String)) : Option (List PyVal) :=
  match file with
  | none => some []
  | some lines => processLines decode s lines

/-- Concrete stand-in decoder used by the witnesses: two well-formed
one-key payload lines, everything else a decode failure. -/
def demoDecode : String → Option PyVal := fun line =>
  if line = "good1" then some (.pyDict [("co2_ppm", .pyNum 420)])
  else if line = "good2" then some (.pyDict [("co2_ppm", .pyNum 200)])
  else none

/-- C5: the Batch Enrichment Processor isolates partial failures: a missing
file yields an empty result list without raising; a blank line is skipped
silently; a line that fails to decode as JSON is skipped while processing
continues with the rest; a decodable line prepends its enriched record, so
output is in file order; and the 3-line batch with one malformed line yields
exactly 2 enriched records. -/
theorem process_file_partial_failure_isolation :
    (∀ (decode : String → Option PyVal) (s : Settings),
      process_file decode s none = some []) ∧
    (∀ (decode : String → Option PyVal) (s : Settings) (line : String)
        (rest : List String), pyStrip line = "" →
      process_file decode s (some (line :: rest)) = process_file decode s (some rest)) ∧
    (∀ (decode : String → Option PyVal) (s : Settings) (line : String)
        (rest : List String), pyStrip line ≠ "" → decode (pyStrip line) = none →
      process_file decode s (some (line :: rest)) = process_file decode s (some rest)) ∧
    (∀ (decode : String → Option PyVal) (s : Settings) (line : String)
        (rest : List String) (raw e : PyVal),
      pyStrip line ≠ "" → decode (pyStrip line) = some raw →
      enrich_event s raw = some e →
      process_file decode s (some (line :: rest))
        = (process_file decode s (some rest)).map (fun l => e :: l)) ∧
    Option.map List.length (process_file demoDecode defaultSettings
      (some ["good1", "this is not json", "good2"])) = some 2 := by
  refine ⟨fun _ _ => rfl, ?_, ?_, ?_, rfl⟩
  · intro decode s line rest h
    simp [process_file, processLines, h]
  · intro decode s line rest h1 h2
    simp [process_file, processLines, h1, h2]
  · intro decode s line rest raw e h1 h2 h3
    simp [process_file, processLines, h1, h2, h3]

/-- Witness for C5: a malformed line is skipped and processing continues. -/
theorem process_file_partial_failure_isolation_witness :
    process_file demoDecode defaultSettings (some ["this is not json", "good2"])
      = process_file demoDecode defaultSettings (some ["good2"]) :=
  process_file_partial_failure_isolation.2.2.1 demoDecode defaultSettings
    "this is not json" ["good2"] (by simp [pyStrip]) rfl

/-- Embedding of streaming.write_output: append the batch's records to the
end of the output log.  The log is modelled as the sequence of records
appended (one `json.dumps` line per record). -/
def write_output (log : List PyVal) (events : List PyVal) : List PyVal :=
  log ++ events

/-- Embedding of one scan of streaming.run_pipeline's inner loop over the
discovered files: process each file in discovery order, append the enriched
records to the output log when there is at least one (`if enriched:`), then
move to the next file.  Removing the consumed input file touches only the
input directory, not the log; a deletion failure is caught and non-fatal.
An exception escaping process_file is not caught and kills the loop
(`none`). -/
def processScan (decode : String → Option PyVal) (s : Settings)
    (log : List PyVal) : List (Option (List String)) → Option (List PyVal)
  | [] => some log
  | file :: files =>
    match process_file decode s file with
    | none => none
    | some enriched =>
      processScan decode s
        (if enriched.isEmpty then log else write_output log enriched) files

/-- C8: log append is ordered: processing two sequential batch files appends
the enriched records of the first file and then those of the second at the
end of the output log, each batch in file order. -/
theorem pipeline_log_append_ordered (decode : String → Option PyVal)
    (s : Settings) (log : List PyVal) (f1 f2 : Option (List String))
    (e1 e2 : List PyVal)
    (h1 : process_file decode s f1 = some e1)
    (h2 : process_file decode s f2 = some e2) :
    processScan decode s log [f1, f2] = some (log ++ e1 ++ e2) := by
  rcases e1 with _ | ⟨x, xs⟩ <;> rcases e2 with _ | ⟨y, ys⟩ <;>
    simp [processScan, h1, h2, write_output]

/-- The enrichment of the demo line "good1" (co2 420): risk 21/25,
carbon 1/5, severity "danger", anomalous. -/
def demoEnriched1 : List PyVal :=
  [.pyDict [("co2_ppm", .pyNum 420), ("risk_score", .pyNum (21/25)),
    ("carbon_score", .pyNum (1/5)), ("severity", .pyStr "danger"),
    ("anomaly", .pyBool true)]]

/-- The enrichment of the demo line "good2" (co2 200): risk 2/5,
carbon 0, severity "safe", not anomalous. -/
def demoEnriched2 : List PyVal :=
  [.pyDict [("co2_ppm", .pyNum 200), ("risk_score", .pyNum (2/5)),
    ("carbon_score", .pyNum 0), ("severity", .pyStr "safe"),
    ("anomaly", .pyBool false)]]

/-- Evaluation of the demo batch file holding only "good1". -/
theorem demoFile1_eval :
    process_file demoDecode defaultSettings (some ["good1"]) = some demoEnriched1 := by
  simp [process_file, processLines, demoDecode, enrich_event, pyFloat,
    dictGet, dictSet, demoEnriched1, pyStrip, List.dropWhile, Char.isWhitespace]
  norm_num [compute_risk_score, compute_carbon_score, classify_severity,
    is_anomaly, defaultSettings]

/-- Evaluation of the demo batch file holding only "good2". -/
theorem demoFile2_eval :
    process_file demoDecode defaultSettings (some ["good2"]) = some demoEnriched2 := by
  simp [process_file, processLines, demoDecode, enrich_event, pyFloat,
    dictGet, dictSet, demoEnriched2, pyStrip, List.dropWhile, Char.isWhitespace]
  norm_num [compute_risk_score, compute_carbon_score, classify_severity,
    is_anomaly, defaultSettings]

/-- Witness for C8 on two concrete one-line batch files. -/
theorem pipeline_log_append_ordered_witness :
    processScan demoDecode defaultSettings [] [some ["good1"], some ["good2"]]
      = some (([] : List PyVal) ++ demoEnriched1 ++ demoEnriched2) :=
  pipeline_log_append_ordered demoDecode defaultSettings []
    (some ["good1"]) (some ["good2"]) demoEnriched1 demoEnriched2
    demoFile1_eval demoFile2_eval

/-- C7: enrichment is deterministic and idempotent: for a fixed reading and
fixed threshold configuration, enrich_event called twice on the same input
yields identical output, and the derived quadruple
(risk_score, carbon_score, severity, anomaly) depends only on the
configuration and the co2_ppm value of the input. -/
theorem enrich_event_deterministic :
    (∀ (s : Settings) (raw : PyVal), enrich_event s raw = enrich_event s raw) ∧
    (∀ (s : Settings) (f1 f2 : List (String × PyVal)),
      dictGet f1 "co2_ppm" = dictGet f2 "co2_ppm" →
      Option.map derivedQuad (enrich_event s (.pyDict f1))
        = Option.map derivedQuad (enrich_event s (.pyDict f2))) := by
  refine ⟨fun s raw => rfl, fun s f1 f2 h => ?_⟩
  cases hc : pyFloat ((dictGet f1 "co2_ppm").getD (.pyNum 0)) with
  | none =>
    have hc2 : pyFloat ((dictGet f2 "co2_ppm").getD (.pyNum 0)) = none := by
      rw [← h]; exact hc
    simp only [enrich_event, hc, hc2, Option.map_none]
  | some co2 =>
    have hc2 : pyFloat ((dictGet f2 "co2_ppm").getD (.pyNum 0)) = some co2 := by
      rw [← h]; exact hc
    obtain ⟨o1, e1, r1, c1, sv1, a1, _⟩ := enrich_event_fields s f1 co2 hc
    obtain ⟨o2, e2, r2, c2, sv2, a2, _⟩ := enrich_event_fields s f2 co2 hc2
    rw [e1, e2]
    simp [derivedQuad, r1, c1, sv1, a1, r2, c2, sv2, a2]

/-- Witness for C7 on two dicts sharing co2_ppm = 420. -/
theorem enrich_event_deterministic_witness :
    Option.map derivedQuad (enrich_event defaultSettings
        (.pyDict [("co2_ppm", .pyNum 420), ("source", .pyStr "a")]))
      = Option.map derivedQuad (enrich_event defaultSettings
        (.pyDict [("co2_ppm", .pyNum 420)])) :=
  enrich_event_deterministic.2 defaultSettings
    [("co2_ppm", .pyNum 420), ("source", .pyStr "a")]
    [("co2_ppm", .pyNum 420)] rfl

/-- C10: enrich_event is total on dicts lacking the co2_ppm key: the value
defaults to 0.0, the call returns (never raises) with risk_score 0,
carbon_score 0, severity "safe", anomaly false, and every other input key
is preserved unchanged. -/
theorem enrich_event_missing_co2 (fields : List (String × PyVal))
    (h : dictGet fields "co2_ppm" = none) :
    ∃ out, enrich_event defaultSettings (.pyDict fields) = some (.pyDict out) ∧
      dictGet out "risk_score" = some (.pyNum 0) ∧
      dictGet out "carbon_score" = some (.pyNum 0) ∧
      dictGet out "severity" = some (.pyStr "safe") ∧
      dictGet out "anomaly" = some (.pyBool false) ∧
      ∀ k, k ∉ (["risk_score", "carbon_score", "severity", "anomaly"] : List String) →
        dictGet out k = dictGet fields k := by
  have h0 : pyFloat ((dictGet fields "co2_ppm").getD (.pyNum 0)) = some 0 := by
    rw [h]; rfl
  obtain ⟨out, e, r, c, sv, a, pres⟩ := enrich_event_fields defaultSettings fields 0 h0
  refine ⟨out, e, ?_, ?_, ?_, ?_, pres⟩
  · rw [r]; norm_num [compute_risk_score, defaultSettings]
  · rw [c]; norm_num [compute_carbon_score]
  · rw [sv]; rfl
  · rw [a]; norm_num [is_anomaly]

/-- Witness for C10 on the dict containing only a source key. -/
theorem enrich_event_missing_co2_witness :
    ∃ out, enrich_event defaultSettings
        (.pyDict [("source", .pyStr "s1")]) = some (.pyDict out) ∧
      dictGet out "risk_score" = some (.pyNum 0) ∧
      dictGet out "carbon_score" = some (.pyNum 0) ∧
      dictGet out "severity" = some (.pyStr "safe") ∧
      dictGet out "anomaly" = some (.pyBool false) ∧
      ∀ k, k ∉ (["risk_score", "carbon_score", "severity", "anomaly"] : List String) →
        dictGet out k = dictGet [("source", PyVal.pyStr "s1")] k :=
  enrich_event_missing_co2 [("source", .pyStr "s1")] rfl

/-- Embedding of the line loop of streaming.stream_enriched_events: strip
each line, skip blanks, silently skip undecodable lines
(`except json.JSONDecodeError: pass`), keep decoded events in file order. -/
def tailEvents (decode : String → Option PyVal) : List String → List PyVal
  | [] => []
  | line :: rest =>
    if pyStrip line = "" then tailEvents decode rest
    else
      match decode (pyStrip line) with
      | none => tailEvents decode rest
      | some v => v :: tailEvents decode rest

/-- Embedding of streaming.stream_enriched_events: a missing output file or
an OSError while reading (both modelled by `none`) yields []; otherwise the
last `tail` decoded events are returned (the Python slice events[-tail:],
which is the whole list when tail = 0). -/
def stream_enriched_events (decode : String → Option PyVal)
    (file : Option (List String)) (tail : ℕ) : List PyVal :=
  match file with
  | none => []
  | some lines =>
    let events := tailEvents decode lines
    if tail = 0 then events else events.drop (events.length - tail)

/-- Embedding of one iteration of stream._live_event_generator, with the
ambient effects made explicit: `file` is the current output-log content,
`co2` the drawn random value (`round(uniform(310, 520), 2)`), `ts` the
current time.  The cycle reads the last 1 log event and, when none exists,
synthesizes the fallback reading and enriches it; the result is the payload
serialized onto the SSE data line. -/
def liveCycle (s : Settings) (decode : String → Option PyVal)
    (file : Option (List String)) (co2 ts : ℚ) : Option PyVal :=
  let events := stream_enriched_events decode file 1
  match events.getLast? with
  | some payload => some payload
  | none =>
    enrich_event s (.pyDict
      [("source", .pyStr "live-sensor"), ("co2_ppm", .pyNum co2),
       ("timestamp", .pyNum ts)])

/-- C6: when the output log is empty, missing or unreadable (no events can
be tailed), a push-channel cycle still emits a well-formed message: the
synthesized fallback reading is run through the Feature Extractor and the
emitted payload is a dict carrying the randomized co2_ppm from the demo
range [310, 520] and a valid severity label — never an empty or failed
message. -/
theorem live_tail_fallback (s : Settings) (decode : String → Option PyVal)
    (file : Option (List String)) (co2 ts : ℚ)
    (hfile : stream_enriched_events decode file 1 = [])
    (h1 : 310 ≤ co2) (h2 : co2 ≤ 520) :
    ∃ out, liveCycle s decode file co2 ts = some (.pyDict out) ∧
      dictGet out "co2_ppm" = some (.pyNum co2) ∧
      310 ≤ co2 ∧ co2 ≤ 520 ∧
      ∃ sev, dictGet out "severity" = some (.pyStr sev) ∧
        sev ∈ (["safe", "warning", "danger", "critical"] : List String) := by
  have h0 : pyFloat ((dictGet
      [("source", PyVal.pyStr "live-sensor"), ("co2_ppm", PyVal.pyNum co2),
       ("timestamp", PyVal.pyNum ts)] "co2_ppm").getD (.pyNum 0)) = some co2 := rfl
  obtain ⟨out, e, r, c, sv, a, pres⟩ := enrich_event_fields s _ co2 h0
  refine ⟨out, ?_, ?_, h1, h2, classify_severity s co2, sv,
    classify_severity_total s co2⟩
  · simp [liveCycle, hfile, e]
  · rw [pres "co2_ppm" (by decide)]
    rfl

/-- Witness for C6: missing output log, fallback co2 = 400. -/
theorem live_tail_fallback_witness :
    ∃ out, liveCycle defaultSettings demoDecode none 400 0 = some (.pyDict out) ∧
      dictGet out "co2_ppm" = some (.pyNum 400) ∧
      (310 : ℚ) ≤ 400 ∧ (400 : ℚ) ≤ 520 ∧
      ∃ sev, dictGet out "severity" = some (.pyStr sev) ∧
        sev ∈ (["safe", "warning", "danger", "critical"] : List String) :=
  live_tail_fallback defaultSettings demoDecode none 400 0 rfl
    (by norm_num) (by norm_num)

/-- Embedding of database.models.Event: one persisted sensor observation. -/
structure Event where
  id : ℕ
  source : String
  timestamp : ℚ
  co2_ppm : ℚ
  risk_score : ℚ
  carbon_score : ℚ
  location : Option String
  raw_payload : Option String
deriving Repr, DecidableEq

/-- Embedding of database.models.SystemAlert (the database-assigned `id`
surrogate key is left out: it is set on flush, not by the evaluator). -/
structure SystemAlert where
  event_id : Option ℕ
  alert_type : String
  severity : String
  message : String
  timestamp : ℚ
  resolved : Bool
deriving Repr, DecidableEq

/-- Round to the nearest integer with ties to even, as Python's fixed-point
formatting does. -/
def roundHalfEven (q : ℚ) : ℤ :=
  if q - ⌊q⌋ < 1/2 then ⌊q⌋
  else if q - ⌊q⌋ > 1/2 then ⌊q⌋ + 1
  else if ⌊q⌋ % 2 = 0 then ⌊q⌋ else ⌊q⌋ + 1

/-- Model of Python fixed-point formatting with d ≥ 1 decimals (the .1f and
.2f conversions in the alert messages): round half-to-even at the d-th
decimal and render exactly d decimals. -/
def formatFixed (q : ℚ) (d : ℕ) : String :=
  let m := roundHalfEven (q * 10 ^ d)
  let sgn := if m < 0 then "-" else ""
  let n := m.natAbs
  let frac := toString (n % 10 ^ d)
  let pad := String.mk (List.replicate (d - frac.length) '0')
  sgn ++ toString (n / 10 ^ d) ++ "." ++ pad ++ frac

/-- Model of Python str(float) as interpolated for the danger threshold in
the alert message: integral floats render as "n.0"; the shortest-round-trip
repr of non-integral floats is outside the model (no claim concerns the
message text). -/
def pyFloatRepr (q : ℚ) : String :=
  if q.den = 1 then toString q.num ++ ".0"
  else toString q.num ++ "/" ++ toString q.den

/-- Embedding of alerts.AlertService.evaluate: the two independent
conditions, each appending at most one alert, in source order.  Persistence
effects (db.add / db.flush) and logging are dropped; the function returns
the list of created alerts, stamped with the current time `now`
(Python time.time()). -/
def AlertService.evaluate (s : Settings) (now : ℚ) (event : Event) :
    List SystemAlert :=
  let severity := classify_severity s event.co2_ppm
  (if severity = "danger" ∨ severity = "critical" then
    [{ event_id := some event.id
       alert_type := "HIGH_CO2"
       severity := if severity = "critical" then "critical" else "warning"
       message := "CO2 level at " ++ formatFixed event.co2_ppm 1
         ++ " ppm from \x27" ++ event.source
         ++ "\x27 exceeds safe threshold ("
         ++ pyFloatRepr s.CO2_DANGER_THRESHOLD ++ " ppm). Risk score: "
         ++ formatFixed event.risk_score 2 ++ "."
       timestamp := now
       resolved := false }]
  else []) ++
  (if event.risk_score ≥ (0.9 : ℚ) then
    [{ event_id := some event.id
       alert_type := "CRITICAL_RISK"
       severity := "critical"
       message := "Risk score " ++ formatFixed event.risk_score 2
         ++ " from \x27" ++ event.source
         ++ "\x27 is critically high. Immediate action required."
       timestamp := now
       resolved := false }]
  else [])

/-- Demo event as ingested from co2_ppm = 550: severity critical,
risk score 1.0. -/
def event550 : Event :=
  { id := 1, source := "s1", timestamp := 0, co2_ppm := 550, risk_score := 1,
    carbon_score := 4/7, location := none, raw_payload := none }

/-- Demo event as ingested from co2_ppm = 200: severity safe,
risk score 0.4. -/
def event200 : Event :=
  { id := 2, source := "s1", timestamp := 0, co2_ppm := 200, risk_score := 2/5,
    carbon_score := 0, location := none, raw_payload := none }

/-- C3: the Alert Evaluator checks two independent conditions and returns
exactly the alerts they produce: HIGH_CO2 fires iff the CO2 classifies as
danger or critical (alert severity "critical" when critical, else
"warning"); CRITICAL_RISK fires iff risk_score ≥ 0.9 (alert severity
"critical"); the alert count is the sum of the two indicators, so both can
fire for one event; co2 550 / risk 1.0 produces exactly 2 alerts and
co2 200 / risk 0.4 produces 0. -/
theorem alert_evaluate_spec (s : Settings) (now : ℚ) (e : Event) :
    ((∃ a ∈ AlertService.evaluate s now e, a.alert_type = "HIGH_CO2") ↔
      (classify_severity s e.co2_ppm = "danger" ∨
       classify_severity s e.co2_ppm = "critical")) ∧
    ((∃ a ∈ AlertService.evaluate s now e, a.alert_type = "CRITICAL_RISK") ↔
      (0.9 : ℚ) ≤ e.risk_score) ∧
    (∀ a ∈ AlertService.evaluate s now e, a.alert_type = "HIGH_CO2" →
      a.severity = if classify_severity s e.co2_ppm = "critical"
        then "critical" else "warning") ∧
    (∀ a ∈ AlertService.evaluate s now e, a.alert_type = "CRITICAL_RISK" →
      a.severity = "critical") ∧
    (AlertService.evaluate s now e).length =
      ((if classify_severity s e.co2_ppm = "danger" ∨
          classify_severity s e.co2_ppm = "critical" then 1 else 0)
       + (if (0.9 : ℚ) ≤ e.risk_score then 1 else 0)) ∧
    (AlertService.evaluate defaultSettings now event550).length = 2 ∧
    (AlertService.evaluate defaultSettings now event200).length = 0 := by
  refine ⟨?_, ?_, ?_, ?_, ?_, ?_, ?_⟩
  · by_cases hA : classify_severity s e.co2_ppm = "danger" ∨
        classify_severity s e.co2_ppm = "critical" <;>
      by_cases hB : (0.9 : ℚ) ≤ e.risk_score <;>
      simp [AlertService.evaluate, hA, hB]
  · by_cases hA : classify_severity s e.co2_ppm = "danger" ∨
        classify_severity s e.co2_ppm = "critical" <;>
      by_cases hB : (0.9 : ℚ) ≤ e.risk_score <;>
      simp [AlertService.evaluate, hA, hB]
  · by_cases hA : classify_severity s e.co2_ppm = "danger" ∨
        classify_severity s e.co2_ppm = "critical" <;>
      by_cases hB : (0.9 : ℚ) ≤ e.risk_score <;>
      simp [AlertService.evaluate, hA, hB]
  · by_cases hA : classify_severity s e.co2_ppm = "danger" ∨
        classify_severity s e.co2_ppm = "critical" <;>
      by_cases hB : (0.9 : ℚ) ≤ e.risk_score <;>
      simp [AlertService.evaluate, hA, hB]
  · by_cases hA : classify_severity s e.co2_ppm = "danger" ∨
        classify_severity s e.co2_ppm = "critical" <;>
      by_cases hB : (0.9 : ℚ) ≤ e.risk_score <;>
      simp [AlertService.evaluate, hA, hB]
  · norm_num [AlertService.evaluate, classify_severity, defaultSettings, event550]
  · norm_num [AlertService.evaluate, classify_severity, defaultSettings, event200]
    decide

/-- Witness for C3: the two concrete alert fan-out counts. -/
theorem alert_evaluate_spec_witness :
    (AlertService.evaluate defaultSettings 0 event550).length = 2 ∧
    (AlertService.evaluate defaultSettings 0 event200).length = 0 :=
  ⟨(alert_evaluate_spec defaultSettings 0 event550).2.2.2.2.2.1,
   (alert_evaluate_spec defaultSettings 0 event200).2.2.2.2.2.2⟩

/-- C1: classify_severity is a total, exhaustive step function with half-open
boundaries on the low side.  Under the default thresholds (warning 350,
danger 400): co2 < 350 is "safe", 350 ≤ co2 < 400 is "warning" (so exactly
350.0 is "warning" and 349.999 is "safe"), 400 ≤ co2 < 500 is "danger",
co2 ≥ 500 is "critical"; the safe/warning/danger boundaries match the
configured thresholds exactly for every configuration. -/
theorem classify_severity_step_function (co2 : ℚ) (h : 0 ≤ co2) :
    classify_severity defaultSettings co2 ∈
      (["safe", "warning", "danger", "critical"] : List String) ∧
    (classify_severity defaultSettings co2 = "safe" ↔ co2 < 350) ∧
    (classify_severity defaultSettings co2 = "warning" ↔ 350 ≤ co2 ∧ co2 < 400) ∧
    (classify_severity defaultSettings co2 = "danger" ↔ 400 ≤ co2 ∧ co2 < 500) ∧
    (classify_severity defaultSettings co2 = "critical" ↔ 500 ≤ co2) ∧
    classify_severity defaultSettings (350 : ℚ) = "warning" ∧
    classify_severity defaultSettings (349.999 : ℚ) = "safe" ∧
    (∀ s : Settings,
      (classify_severity s co2 = "safe" ↔ co2 < s.CO2_WARNING_THRESHOLD) ∧
      (classify_severity s co2 = "warning" ↔
        s.CO2_WARNING_THRESHOLD ≤ co2 ∧ co2 < s.CO2_DANGER_THRESHOLD)) := by
  refine ⟨classify_severity_total _ _, ?_, ?_, ?_, ?_,
    by norm_num [classify_severity, defaultSettings],
    by norm_num [classify_severity, defaultSettings], ?_⟩
  · unfold classify_severity defaultSettings
    split_ifs with h1 h2 h3 <;> simp_all <;> intros <;> linarith
  · unfold classify_severity defaultSettings
    split_ifs with h1 h2 h3 <;> simp_all <;> intros <;> linarith
  · unfold classify_severity defaultSettings
    split_ifs with h1 h2 h3 <;> simp_all <;> intros <;> linarith
  · unfold classify_severity defaultSettings
    split_ifs with h1 h2 h3 <;> simp_all <;> intros <;> linarith
  · intro s
    constructor
    · unfold classify_severity
      split_ifs with h1 h2 h3 <;> simp_all
    · unfold classify_severity
      split_ifs with h1 h2 h3 <;> simp_all <;> intros <;> linarith

/-- Witness for C1 at the concrete input co2 = 350. -/
theorem classify_severity_step_function_witness :
    classify_severity defaultSettings (350 : ℚ) = "warning" ∧
    (350 ≤ (350 : ℚ) ∧ (350 : ℚ) < 400) :=
  ⟨((classify_severity_step_function 350 (by norm_num)).2.2.1).2
    (by norm_num), by norm_num⟩

/-- C2: the critical cut-in of classify_severity is the hard-coded constant
500.0, independent of the configurable CO2_CRITICAL_THRESHOLD field: with the
other thresholds at their defaults the classifier says "critical" exactly on
co2 ≥ 500 whatever CO2_CRITICAL_THRESHOLD is, and changing only
CO2_CRITICAL_THRESHOLD never changes any classification. -/
theorem classify_severity_critical_hardcoded :
    (∀ (c co2 : ℚ),
      classify_severity { defaultSettings with CO2_CRITICAL_THRESHOLD := c } co2
        = "critical" ↔ 500 ≤ co2) ∧
    (∀ (s : Settings) (c co2 : ℚ),
      classify_severity { s with CO2_CRITICAL_THRESHOLD := c } co2
        = classify_severity s co2) := by
  constructor
  · intro c co2
    unfold classify_severity defaultSettings
    split_ifs with h1 h2 h3 <;> simp_all <;> linarith
  · intro s c co2
    unfold classify_severity
    rfl

/-- Witness for C2: with CO2_CRITICAL_THRESHOLD overridden to 123456,
co2 = 500 still classifies as "critical". -/
theorem classify_severity_critical_hardcoded_witness :
    classify_severity
      { defaultSettings with CO2_CRITICAL_THRESHOLD := 123456 } 500 = "critical" :=
  (classify_severity_critical_hardcoded.1 123456 500).mpr (by norm_num)

/-- C4: with the default configuration (risk_score_max = 1), for all
co2 ≥ 0 the risk score equals min(co2 / 500, risk_score_max), lies in
[0, risk_score_max], and is monotone non-decreasing. -/
theorem compute_risk_score_spec (x y : ℚ) (hx : 0 ≤ x) (hxy : x ≤ y) :
    compute_risk_score defaultSettings x
        = min (x / 500) defaultSettings.RISK_SCORE_MAX ∧
    0 ≤ compute_risk_score defaultSettings x ∧
    compute_risk_score defaultSettings x ≤ defaultSettings.RISK_SCORE_MAX ∧
    compute_risk_score defaultSettings x ≤ compute_risk_score defaultSettings y := by
  unfold compute_risk_score defaultSettings
  refine ⟨rfl, ?_, ?_, ?_⟩
  · simp only [le_min_iff]
    constructor <;> [positivity; norm_num]
  · exact min_le_right _ _
  · exact min_le_min (by linarith) le_rfl

/-- Witness for C4 at x = 420.5, y = 600. -/
theorem compute_risk_score_spec_witness :
    compute_risk_score defaultSettings (420.5 : ℚ)
        = min ((420.5 : ℚ) / 500) defaultSettings.RISK_SCORE_MAX ∧
    0 ≤ compute_risk_score defaultSettings (420.5 : ℚ) ∧
    compute_risk_score defaultSettings (420.5 : ℚ) ≤ defaultSettings.RISK_SCORE_MAX ∧
    compute_risk_score defaultSettings (420.5 : ℚ)
        ≤ compute_risk_score defaultSettings (600 : ℚ) :=
  compute_risk_score_spec 420.5 600 (by norm_num) (by norm_num)

/-- C9: carbon_score(co2) = max((co2 - 350) / 350, 0): exactly zero for
co2 ≤ 350, and uncapped linear growth (co2 - 350) / 350 above the baseline. -/
theorem compute_carbon_score_spec (co2 : ℚ) :
    compute_carbon_score co2 = max ((co2 - 350) / 350) 0 ∧
    (co2 ≤ 350 → compute_carbon_score co2 = 0) ∧
    (350 ≤ co2 → compute_carbon_score co2 = (co2 - 350) / 350) := by
  unfold compute_carbon_score
  refine ⟨rfl, ?_, ?_⟩
  · intro h
    apply max_eq_right
    apply div_nonpos_of_nonpos_of_nonneg <;> linarith
  · intro h
    apply max_eq_left
    apply div_nonneg (by linarith) (by norm_num)

/-- Witness for C9 at co2 = 700 (score 1) and implicitly at the hypotheses. -/
theorem compute_carbon_score_spec_witness :
    compute_carbon_score (200 : ℚ) = 0 ∧
    compute_carbon_score (700 : ℚ) = ((700 : ℚ) - 350) / 350 :=
  ⟨(compute_carbon_score_spec 200).2.1 (by norm_num),
   (compute_carbon_score_spec 700).2.2 (by norm_num)⟩

end GreenFlow
